import Mathlib

/-!
Shallow embedding of the SOOP live-chat WebSocket client
(src/soop_chat_client.py, class SoopChatClient).

Python strings are modelled as Lean `String` (a sequence of Unicode code
points, as a Python `str` is): `len` is `String.length`, slicing is
`pySlice`, `s.startswith(p)` is `pyStartsWith`, and
`len(s.encode('utf-8'))` is `String.utf8ByteSize`.  Network, clock and
logging effects are made explicit: each handler step returns the new
client state, the list of events emitted (in order), and the list of
outbound actions performed (in order).  Wall-clock timestamp fields of
event payloads are omitted (they are real time, not part of the data
flow).
-/

namespace Soop

/-- Python slice s[a:b] over code points, clipped at the ends. -/
def pySlice (s : String) (a b : Nat) : String :=
  ⟨(s.data.drop a).take (b - a)⟩

/-- Python s.startswith(pre). -/
def pyStartsWith (s pre : String) : Bool :=
  s.data.take pre.data.length == pre.data

/-- Python str.zfill(w): left-pad with zero characters up to width w. -/
def zfill (w : Nat) (s : String) : String :=
  if w ≤ s.length then s else ⟨List.replicate (w - s.length) '0' ++ s.data⟩

/-- Python parts[i] if len(parts) > i else "" (defensive positional access). -/
def pyGet (parts : List String) (i : Nat) : String :=
  parts.getD i ""

/-- Python s.lower(): lowercase character by character. -/
def pyLower (s : String) : String :=
  ⟨s.data.map Char.toLower⟩

namespace ChatDelimiter

/-- ESC + TAB. -/
def STARTER : String := "\x1b\t"

/-- Form feed. -/
def SEPARATOR : String := "\x0c"

/-- Device control 1. -/
def ELEMENT_START : String := "\x11"

/-- Device control 2. -/
def ELEMENT_END : String := "\x12"

/-- ACK. -/
def SPACE : String := "\x06"

end ChatDelimiter

namespace ChatType

def PING : String := "0000"

def CONNECT : String := "0001"

def ENTER_CHAT_ROOM : String := "0002"

def EXIT : String := "0004"

def CHAT : String := "0005"

def DISCONNECT : String := "0007"

def ENTER_INFO : String := "0012"

def TEXT_DONATION : String := "0018"

def AD_BALLOON_DONATION : String := "0087"

def SUBSCRIBE : String := "0093"

def NOTIFICATION : String := "0104"

def EMOTICON : String := "0109"

def VIDEO_DONATION : String := "0105"

def VIEWER : String := "0127"

end ChatType

namespace SoopChatEvent

def RAW : String := "raw"

def CONNECT : String := "connect"

def DISCONNECT : String := "disconnect"

def ENTER_CHAT_ROOM : String := "enter_chat_room"

def CHAT : String := "chat"

def NOTIFICATION : String := "notification"

def TEXT_DONATION : String := "text_donation"

def VIDEO_DONATION : String := "video_donation"

def AD_BALLOON_DONATION : String := "ad_balloon_donation"

def SUBSCRIBE : String := "subscribe"

def EMOTICON : String := "emoticon"

def VIEWER : String := "viewer"

def EXIT : String := "exit"

def UNKNOWN : String := "unknown"

end SoopChatEvent

/-- LiveDetail dataclass: the room descriptor built by _get_live_detail from
the CHANNEL object of the resolver response. -/
structure LiveDetail where
  result : Int
  chat_domain : String
  chat_port : Int
  chat_no : String
  bj_id : String
  bj_nick : String
  title : String
  ftk : String
  bps : Int
  geo_cc : String
  geo_rc : String
  acpt_lang : String
  svc_lang : String
  view_preset : List String
deriving Repr, DecidableEq

/-- Mutable fields of SoopChatClient.  live_detail starts as None in the
source and is set by connect() before any message is handled; it is
carried here as a plain field.  ws is modelled by the flag wsOpen and the
ping task by the flag pingTask. -/
structure ClientState where
  streamerId : String
  liveDetail : LiveDetail
  connected : Bool
  entered : Bool
  wsOpen : Bool
  pingTask : Bool
deriving Repr, DecidableEq

/-- Events emitted by the client via _emit, tagged with their payload
fields (the time field of each payload dict is omitted). -/
inductive Event where
  | raw (packet : String)
  | connect (username syn streamer_id : String)
  | enter_chat_room (streamer_id syn_ack : String)
  | chat (comment user_id username : String)
  | notification (text : String)
  | text_donation (toUser fromUser from_username amount : String)
  | video_donation (toUser fromUser from_username amount : String)
  | ad_balloon_donation (toUser fromUser from_username amount : String)
  | emoticon (emoticon_id user_id username : String)
  | disconnect (streamer_id : String)
  | unknown (type_code : String) (parts : List String)
deriving Repr, DecidableEq

/-- The SoopChatEvent name under which each event is emitted. -/
def Event.kind : Event → String
  | .raw _ => SoopChatEvent.RAW
  | .connect _ _ _ => SoopChatEvent.CONNECT
  | .enter_chat_room _ _ => SoopChatEvent.ENTER_CHAT_ROOM
  | .chat _ _ _ => SoopChatEvent.CHAT
  | .notification _ => SoopChatEvent.NOTIFICATION
  | .text_donation _ _ _ _ => SoopChatEvent.TEXT_DONATION
  | .video_donation _ _ _ _ => SoopChatEvent.VIDEO_DONATION
  | .ad_balloon_donation _ _ _ _ => SoopChatEvent.AD_BALLOON_DONATION
  | .emoticon _ _ _ => SoopChatEvent.EMOTICON
  | .disconnect _ => SoopChatEvent.DISCONNECT
  | .unknown _ _ => SoopChatEvent.UNKNOWN

/-- Outbound side effects of the client, in order of occurrence. -/
inductive Action where
  | openWebSocket (url : String) (subprotocol : String)
  | sendFrame (packet : String)
  | cancelPingTask
  | closeWebSocket
deriving Repr, DecidableEq

/-- Result of one client step: new state, events emitted, actions done. -/
structure StepResult where
  state : ClientState
  events : List Event
  actions : List Action
deriving Repr, DecidableEq

/-- _get_byte_size: len(text.encode('utf-8')). -/
def getByteSize (text : String) : Nat :=
  text.utf8ByteSize

/-- _get_payload_length: str(byte size).zfill(6). -/
def getPayloadLength (payload : String) : String :=
  zfill 6 (Nat.repr (getByteSize payload))

/-- _get_packet: STARTER + chat_type + payload length (6 digits) + "00" + payload. -/
def getPacket (chat_type payload : String) : String :=
  ChatDelimiter.STARTER ++ chat_type ++ getPayloadLength payload ++ "00" ++ payload

/-- Payload of the CONNECT packet: SEP*3 + "16" + SEP. -/
def connectPayload : String :=
  ChatDelimiter.SEPARATOR ++ ChatDelimiter.SEPARATOR ++ ChatDelimiter.SEPARATOR
    ++ "16" ++ ChatDelimiter.SEPARATOR

/-- _get_connect_packet. -/
def getConnectPacket : String :=
  getPacket ChatType.CONNECT connectPayload

/-- Payload of the JOIN packet: SEP + chat_no + SEP*5. -/
def joinPayload (chat_no : String) : String :=
  ChatDelimiter.SEPARATOR ++ chat_no ++ ChatDelimiter.SEPARATOR ++ ChatDelimiter.SEPARATOR
    ++ ChatDelimiter.SEPARATOR ++ ChatDelimiter.SEPARATOR ++ ChatDelimiter.SEPARATOR

/-- _get_join_packet. -/
def getJoinPacket (chat_no : String) : String :=
  getPacket ChatType.ENTER_CHAT_ROOM (joinPayload chat_no)

/-- _get_ping_packet. -/
def getPingPacket : String :=
  getPacket ChatType.PING ChatDelimiter.SEPARATOR

/-- _parse_message_type: require the packet to start with STARTER, then
return packet[2:6] when len(packet) >= 5, else raise. -/
def parseMessageType (packet : String) : Except String String :=
  if ¬ pyStartsWith packet ChatDelimiter.STARTER then
    Except.error "Invalid packet: does not start with STARTER"
  else if 5 ≤ packet.length then
    Except.ok (pySlice packet 2 6)
  else
    Except.error "Invalid packet: too short"

/-- _parse_connect: fields username (parts[1]) and syn (parts[2]). -/
def parseConnect (packet : String) : String × String :=
  let parts := packet.splitOn ChatDelimiter.SEPARATOR
  (pyGet parts 1, pyGet parts 2)

/-- _parse_enter_chat_room: fields streamer_id (parts[2]) and syn_ack (parts[7]). -/
def parseEnterChatRoom (packet : String) : String × String :=
  let parts := packet.splitOn ChatDelimiter.SEPARATOR
  (pyGet parts 2, pyGet parts 7)

/-- _parse_chat: fields comment (parts[1]), user_id (parts[2]), username (parts[6]). -/
def parseChat (packet : String) : String × String × String :=
  let parts := packet.splitOn ChatDelimiter.SEPARATOR
  (pyGet parts 1, pyGet parts 2, pyGet parts 6)

/-- _parse_notification: field notification (parts[4]). -/
def parseNotification (packet : String) : String :=
  let parts := packet.splitOn ChatDelimiter.SEPARATOR
  pyGet parts 4

/-- _parse_donation: fields to (parts[2]), from (parts[3]),
from_username (parts[4]), amount (parts[5]). -/
def parseDonation (packet : String) : String × String × String × String :=
  let parts := packet.splitOn ChatDelimiter.SEPARATOR
  (pyGet parts 2, pyGet parts 3, pyGet parts 4, pyGet parts 5)

/-- _parse_emoticon: fields emoticon_id (parts[3]), user_id (parts[6]),
username (parts[7]). -/
def parseEmoticon (packet : String) : String × String × String :=
  let parts := packet.splitOn ChatDelimiter.SEPARATOR
  (pyGet parts 3, pyGet parts 6, pyGet parts 7)

/-- disconnect(): when not connected, return at once; otherwise emit the
disconnect event, cancel the ping task if any, close the socket if open,
and clear the connected flag. -/
def disconnect (st : ClientState) : StepResult :=
  if st.connected = false then
    ⟨st, [], []⟩
  else
    ⟨{ st with connected := false, pingTask := false, wsOpen := false },
     [Event.disconnect st.streamerId],
     (if st.pingTask then [Action.cancelPingTask] else [])
       ++ (if st.wsOpen then [Action.closeWebSocket] else [])⟩

/-- _handle_message: emit raw, parse the type code (dropping the frame on
failure), then dispatch on the type code in source order. -/
def handleMessage (st : ClientState) (packet : String) : StepResult :=
  match parseMessageType packet with
  | Except.error _ => ⟨st, [Event.raw packet], []⟩
  | Except.ok msg_type =>
    if msg_type = ChatType.CONNECT then
      let c := parseConnect packet
      ⟨{ st with connected := true },
       [Event.raw packet, Event.connect c.1 c.2 st.streamerId],
       [Action.sendFrame (getJoinPacket st.liveDetail.chat_no)]⟩
    else if msg_type = ChatType.ENTER_CHAT_ROOM then
      let e := parseEnterChatRoom packet
      ⟨{ st with entered := true },
       [Event.raw packet, Event.enter_chat_room e.1 e.2], []⟩
    else if msg_type = ChatType.CHAT then
      let c := parseChat packet
      ⟨st, [Event.raw packet, Event.chat c.1 c.2.1 c.2.2], []⟩
    else if msg_type = ChatType.NOTIFICATION then
      ⟨st, [Event.raw packet, Event.notification (parseNotification packet)], []⟩
    else if msg_type = ChatType.TEXT_DONATION then
      let d := parseDonation packet
      ⟨st, [Event.raw packet, Event.text_donation d.1 d.2.1 d.2.2.1 d.2.2.2], []⟩
    else if msg_type = ChatType.VIDEO_DONATION then
      let d := parseDonation packet
      ⟨st, [Event.raw packet, Event.video_donation d.1 d.2.1 d.2.2.1 d.2.2.2], []⟩
    else if msg_type = ChatType.AD_BALLOON_DONATION then
      let d := parseDonation packet
      ⟨st, [Event.raw packet, Event.ad_balloon_donation d.1 d.2.1 d.2.2.1 d.2.2.2], []⟩
    else if msg_type = ChatType.EMOTICON then
      let e := parseEmoticon packet
      ⟨st, [Event.raw packet, Event.emoticon e.1 e.2.1 e.2.2], []⟩
    else if msg_type = ChatType.DISCONNECT then
      let r := disconnect st
      ⟨r.state, Event.raw packet :: r.events, r.actions⟩
    else
      ⟨st, [Event.raw packet,
            Event.unknown msg_type (packet.splitOn ChatDelimiter.SEPARATOR)], []⟩

/-- Feed a list of inbound frames through _handle_message, threading the
state and concatenating the emitted events. -/
def runFrames : ClientState → List String → ClientState × List Event
  | st, [] => (st, [])
  | st, pkt :: rest =>
    let r := handleMessage st pkt
    let t := runFrames r.state rest
    (t.1, r.events ++ t.2)

/-- _make_chat_url: wss URL from the lowercased chat domain, the chat
port plus one, and the streamer id. -/
def makeChatUrl (st : ClientState) : String :=
  "wss://" ++ pyLower st.liveDetail.chat_domain ++ ":"
    ++ toString (st.liveDetail.chat_port + 1) ++ "/Websocket/" ++ st.streamerId

/-- Failures of connect() before the receive loop starts. -/
inductive ConnectError where
  | alreadyConnected
  | notLive
deriving Repr, DecidableEq

/-- connect() up to the start of the receive loop: refuse when already
connected, store the resolved room descriptor, fail with notLive when its
RESULT is 0, otherwise open the socket with subprotocol chat, send the
CONNECT packet and start the ping task.  The returned action list holds
the outbound actions performed before the outcome. -/
def connectSteps (st : ClientState) (resolved : LiveDetail) :
    List Action × Except ConnectError ClientState :=
  if st.connected then
    ([], Except.error ConnectError.alreadyConnected)
  else
    let st1 := { st with liveDetail := resolved }
    if resolved.result = 0 then
      ([], Except.error ConnectError.notLive)
    else
      ([Action.openWebSocket (makeChatUrl st1) "chat",
        Action.sendFrame getConnectPacket],
       Except.ok { st1 with wsOpen := true, pingTask := true })

/-- The body of _emit for one handler list: call each handler in order on
the payload; an exception from a handler propagates at once, so the
handlers after it are not called.  Returns the payloads the invoked
handlers received, in order, and the propagated exception if any. -/
def emitHandlers {α ε : Type} : List (α → Except ε Unit) → α → List α × Option ε
  | [], _ => ([], none)
  | h :: hs, data =>
    match h data with
    | Except.error e => ([data], some e)
    | Except.ok _ =>
      let r := emitHandlers hs data
      (data :: r.1, r.2)

/-- _emit: look the event name up in the handler table (a dict modelled
as an association list) and run the registered handlers in order. -/
def emit {α ε : Type} (handlers : List (String × List (α → Except ε Unit)))
    (event : String) (data : α) : List α × Option ε :=
  match handlers.lookup event with
  | none => ([], none)
  | some hs => emitHandlers hs data

/-- A concrete resolved room descriptor used in scripted scenarios. -/
def sampleDetail : LiveDetail :=
  ⟨1, "Chat-X", 5000, "99", "bj", "nick", "title", "", 0, "", "", "", "", []⟩

/-- A concrete client state right after connect(): socket open, ping task
running, connect acknowledgement not yet received. -/
def sampleState : ClientState :=
  ⟨"khm11903", sampleDetail, false, false, true, true⟩

/-- A subscriber callback that always succeeds. -/
def okHandler : Nat → Except String Unit := fun _ => Except.ok ()

/-- A subscriber callback that always raises. -/
def boomHandler : Nat → Except String Unit := fun _ => Except.error "boom"

/-- The scripted inbound frame sequence with types 0001, 0002, 0005, 0007. -/
def scriptedFrames : List String :=
  [getPacket ChatType.CONNECT "", getPacket ChatType.ENTER_CHAT_ROOM "",
   getPacket ChatType.CHAT "", getPacket ChatType.DISCONNECT ""]

/-!  Helper lemmas about the codec. -/

/-- zfill pads to the requested width and never truncates. -/
theorem zfill_length (w : Nat) (s : String) : (zfill w s).length = max w s.length := by
  simp only [zfill]
  split
  · next h => exact (Nat.max_eq_right h).symm
  · next h =>
    show (List.replicate (w - s.length) '0' ++ s.data).length = max w s.length
    simp only [List.length_append, List.length_replicate]
    have : s.data.length = s.length := rfl
    omega

/-- Below one million bytes the length field is exactly six characters. -/
theorem getPayloadLength_length (p : String) (h : getByteSize p < 1000000) :
    (getPayloadLength p).length = 6 := by
  have h6 : (Nat.repr (getByteSize p)).length ≤ 6 :=
    Nat.repr_length _ 6 (by omega) (by simpa using h)
  rw [getPayloadLength, zfill_length]
  omega

/-- The length field is never shorter than six characters. -/
theorem getPayloadLength_length_ge (p : String) : 6 ≤ (getPayloadLength p).length := by
  rw [getPayloadLength, zfill_length]
  omega

/-- Character content of an encoded packet. -/
theorem getPacket_data (t p : String) :
    (getPacket t p).data =
      ChatDelimiter.STARTER.data
        ++ (t.data ++ ((getPayloadLength p).data ++ ('0' :: '0' :: p.data))) := by
  simp [getPacket, List.append_assoc]

/-- Decoding an encoded packet recovers its four-character type code. -/
theorem parseMessageType_getPacket (t p : String) (ht : t.length = 4) :
    parseMessageType (getPacket t p) = Except.ok t := by
  have hL : 6 ≤ (getPayloadLength p).length := getPayloadLength_length_ge p
  have hstart : pyStartsWith (getPacket t p) ChatDelimiter.STARTER = true := by
    simp only [pyStartsWith, beq_iff_eq, getPacket_data]
    exact List.take_left _ _
  have hlen : 5 ≤ (getPacket t p).length := by
    have hdata : (getPacket t p).length =
        (ChatDelimiter.STARTER.data
          ++ (t.data ++ ((getPayloadLength p).data ++ ('0' :: '0' :: p.data)))).length := by
      rw [show (getPacket t p).length = (getPacket t p).data.length from rfl, getPacket_data]
    have hLd : (getPayloadLength p).data.length = (getPayloadLength p).length := rfl
    simp only [List.length_append, List.length_cons] at hdata
    omega
  have hslice : pySlice (getPacket t p) 2 6 = t := by
    have h2 : ChatDelimiter.STARTER.data.length = 2 := rfl
    have h4 : t.data.length = 4 := ht
    apply String.ext
    show ((getPacket t p).data.drop 2).take 4 = t.data
    rw [getPacket_data, List.drop_left' h2, List.take_left' h4]
  simp [parseMessageType, hstart, hlen, hslice]

/-- UTF-8 byte length is additive under concatenation. -/
theorem getByteSize_append (a b : String) :
    getByteSize (a ++ b) = getByteSize a + getByteSize b := by
  cases a with
  | mk la =>
    cases b with
    | mk lb =>
      show String.utf8ByteSize ⟨la ++ lb⟩ = String.utf8ByteSize ⟨la⟩ + String.utf8ByteSize ⟨lb⟩
      simp [String.utf8Len_append]


/-- The six characters at positions 6-11 of an encoded packet are its length field. -/
theorem lengthField_getPacket (t p : String) (ht : t.length = 4)
    (hp : getByteSize p < 1000000) :
    pySlice (getPacket t p) 6 12 = getPayloadLength p := by
  have hL : (getPayloadLength p).length = 6 := getPayloadLength_length p hp
  have hLd : (getPayloadLength p).data.length = 6 := hL
  apply String.ext
  show ((getPacket t p).data.drop 6).take 6 = (getPayloadLength p).data
  rw [getPacket_data]
  have hassoc :
      ChatDelimiter.STARTER.data
          ++ (t.data ++ ((getPayloadLength p).data ++ ('0' :: '0' :: p.data)))
        = (ChatDelimiter.STARTER.data ++ t.data)
          ++ ((getPayloadLength p).data ++ ('0' :: '0' :: p.data)) := by
    simp [List.append_assoc]
  rw [hassoc]
  have h6 : (ChatDelimiter.STARTER.data ++ t.data).length = 6 := by
    have h2 : ChatDelimiter.STARTER.data.length = 2 := rfl
    have h4 : t.data.length = 4 := ht
    rw [List.length_append, h2, h4]
  rw [List.drop_left' h6, List.take_left' hLd]

/-- C4 counterexample: the message STARTER followed by 000 has length 5, below
the 14-character header, yet _parse_message_type succeeds on it, refuting that
parsing fails exactly on messages shorter than the header. -/
theorem c4_counterexample :
    (ChatDelimiter.STARTER ++ "000").length < 14
    ∧ parseMessageType (ChatDelimiter.STARTER ++ "000") = Except.ok "000" := by
  exact ⟨by decide, rfl⟩

/-- C4 (amended): header parsing fails exactly when the message does not begin
with STARTER or is shorter than 5 characters; every message beginning with
STARTER of length at least 5 parses to the characters at 0-indexed positions
2-5, a full 4 characters whenever the message has at least 6 characters. -/
theorem c4_parse_header :
    ∀ pkt : String,
      ((parseMessageType pkt).isOk = true ↔
        (pyStartsWith pkt ChatDelimiter.STARTER = true ∧ 5 ≤ pkt.length))
      ∧ (pyStartsWith pkt ChatDelimiter.STARTER = true → 5 ≤ pkt.length →
          parseMessageType pkt = Except.ok (pySlice pkt 2 6))
      ∧ (6 ≤ pkt.length → (pySlice pkt 2 6).length = 4) := by
  intro pkt
  refine ⟨?_, ?_, ?_⟩
  · by_cases h1 : pyStartsWith pkt ChatDelimiter.STARTER = true
    · by_cases h2 : 5 ≤ pkt.length
      · simp [parseMessageType, h1, h2, Except.isOk, Except.toBool]
      · simp [parseMessageType, h1, h2, Except.isOk, Except.toBool]
    · simp [parseMessageType, h1, Except.isOk, Except.toBool]
  · intro h1 h2
    simp [parseMessageType, h1, h2]
  · intro h6
    have hd : pkt.data.length = pkt.length := rfl
    show ((pkt.data.drop 2).take 4).length = 4
    rw [List.length_take, List.length_drop]
    omega

/-- C4 witness: parsing a concrete well-formed chat packet. -/
theorem c4_witness :
    parseMessageType (getPacket ChatType.CHAT "abc")
      = Except.ok (pySlice (getPacket ChatType.CHAT "abc") 2 6) :=
  (c4_parse_header (getPacket ChatType.CHAT "abc")).2.1 (by decide) (by decide)

/-- C3 counterexample: a message failing header validation still emits the raw
event, refuting that no event of any kind (including raw) is emitted. -/
theorem c3_counterexample :
    (handleMessage sampleState "no frame").events = [Event.raw "no frame"]
    ∧ (handleMessage sampleState "no frame").events ≠ [] := by
  exact ⟨rfl, by decide⟩

/-- C3 (amended): a message that fails header validation emits exactly the raw
event, emits no decoded event, performs no action, does not raise, and leaves
every state field of the client unchanged. -/
theorem c3_invalid_header :
    ∀ (st : ClientState) (pkt err : String),
      parseMessageType pkt = Except.error err →
      handleMessage st pkt = ⟨st, [Event.raw pkt], []⟩ := by
  intro st pkt err h
  simp [handleMessage, h]

/-- C3 witness: the concrete invalid message bad. -/
theorem c3_witness :
    handleMessage sampleState "bad" = ⟨sampleState, [Event.raw "bad"], []⟩ :=
  c3_invalid_header sampleState "bad" "Invalid packet: does not start with STARTER" rfl

/-- C5: decoding each outbound recipe (CONNECT type 0001, JOIN type 0002, PING
type 0000) succeeds with the recipe type code, and the length field in the
header is the UTF-8 byte length of the recipe payload (6 for CONNECT,
6 + the byte length of chat_no for JOIN, 1 for PING). -/
theorem c5_roundtrip :
    ∀ chat_no : String,
      (parseMessageType getConnectPacket = Except.ok ChatType.CONNECT
        ∧ pySlice getConnectPacket 6 12 = getPayloadLength connectPayload
        ∧ getByteSize connectPayload = 6
        ∧ getPayloadLength connectPayload = "000006")
      ∧ (parseMessageType (getJoinPacket chat_no) = Except.ok ChatType.ENTER_CHAT_ROOM
        ∧ getByteSize (joinPayload chat_no) = 6 + getByteSize chat_no
        ∧ (getByteSize chat_no < 999994 →
            pySlice (getJoinPacket chat_no) 6 12 = getPayloadLength (joinPayload chat_no)))
      ∧ (parseMessageType getPingPacket = Except.ok ChatType.PING
        ∧ pySlice getPingPacket 6 12 = getPayloadLength ChatDelimiter.SEPARATOR
        ∧ getByteSize ChatDelimiter.SEPARATOR = 1
        ∧ getPayloadLength ChatDelimiter.SEPARATOR = "000001") := by
  intro chat_no
  have hjoin : getByteSize (joinPayload chat_no) = 6 + getByteSize chat_no := by
    simp [joinPayload, getByteSize_append]
    have h1 : getByteSize ChatDelimiter.SEPARATOR = 1 := rfl
    rw [h1]
    omega
  refine ⟨⟨?_, ?_, rfl, rfl⟩, ⟨?_, hjoin, ?_⟩, ⟨?_, ?_, rfl, rfl⟩⟩
  · exact parseMessageType_getPacket _ _ rfl
  · exact lengthField_getPacket _ _ rfl (by decide)
  · exact parseMessageType_getPacket _ _ rfl
  · intro hb
    exact lengthField_getPacket _ _ rfl (by omega)
  · exact parseMessageType_getPacket _ _ rfl
  · exact lengthField_getPacket _ _ rfl (by decide)

/-- C5 witness: the JOIN packet for the concrete room number 99. -/
theorem c5_witness :
    pySlice (getJoinPacket "99") 6 12 = getPayloadLength (joinPayload "99") :=
  ((c5_roundtrip "99").2.1.2.2 (by decide))

/-- C6: an encoded packet is STARTER, the type code, the payload byte length
as a 6-digit zero-padded decimal, 00, then the payload; the length counts
UTF-8 bytes, not characters, as the two-character six-byte payload shows. -/
theorem c6_frame_layout :
    ∀ (t p : String), getByteSize p < 1000000 →
      (getPacket t p = ChatDelimiter.STARTER ++ t ++ getPayloadLength p ++ "00" ++ p
        ∧ (getPayloadLength p).length = 6
        ∧ getPayloadLength p = zfill 6 (Nat.repr (getByteSize p)))
      ∧ (getByteSize "한글" = 6 ∧ "한글".length = 2 ∧ getPayloadLength "한글" = "000006") := by
  intro t p h
  exact ⟨⟨rfl, getPayloadLength_length p h, rfl⟩, rfl, rfl, rfl⟩

/-- C6 witness: the layout at a concrete multi-byte payload. -/
theorem c6_witness :
    getPacket "0005" "한글" =
      ChatDelimiter.STARTER ++ "0005" ++ getPayloadLength "한글" ++ "00" ++ "한글" :=
  ((c6_frame_layout "0005" "한글" (by decide)).1).1

/-- C7: the WebSocket URL is wss:// + lowercased chat host + : + (chat port
plus 1) + /Websocket/ + the id the client was created with; for chat host
Chat-X and port 5000 it is wss://chat-x:5001/Websocket/khm11903. -/
theorem c7_chat_url :
    ∀ st : ClientState,
      makeChatUrl st =
        "wss://" ++ pyLower st.liveDetail.chat_domain ++ ":"
          ++ toString (st.liveDetail.chat_port + 1) ++ "/Websocket/" ++ st.streamerId
      ∧ makeChatUrl sampleState = "wss://chat-x:5001/Websocket/khm11903" := by
  intro st
  exact ⟨rfl, rfl⟩


/-- C1 counterexample: a synthesized frame with type code 0004, which the claim
maps to the kind exit, is handled as raw followed by unknown; no exit event is
emitted (the dispatch in _handle_message has no branch for 0004). -/
theorem c1_counterexample :
    (handleMessage sampleState (getPacket ChatType.EXIT "")).events.map Event.kind
      = [SoopChatEvent.RAW, SoopChatEvent.UNKNOWN]
    ∧ SoopChatEvent.EXIT ∉
        (handleMessage sampleState (getPacket ChatType.EXIT "")).events.map Event.kind := by
  exact ⟨by decide, by decide⟩

/-- C1 (amended): handling a synthesized frame emits the mapped kind after raw
for the codes 0001, 0002, 0005, 0104, 0018, 0105, 0087, 0109; a 0007 frame
emits disconnect only when the session is connected and only raw otherwise;
every other 4-digit code - including 0004, 0012, 0093 and 0127 - emits
unknown carrying the raw segments of the frame. -/
theorem c1_kind_mapping :
    ∀ (st : ClientState) (payload : String),
      ((handleMessage st (getPacket ChatType.CONNECT payload)).events.map Event.kind
          = [SoopChatEvent.RAW, SoopChatEvent.CONNECT]
        ∧ (handleMessage st (getPacket ChatType.ENTER_CHAT_ROOM payload)).events.map Event.kind
          = [SoopChatEvent.RAW, SoopChatEvent.ENTER_CHAT_ROOM]
        ∧ (handleMessage st (getPacket ChatType.CHAT payload)).events.map Event.kind
          = [SoopChatEvent.RAW, SoopChatEvent.CHAT]
        ∧ (handleMessage st (getPacket ChatType.NOTIFICATION payload)).events.map Event.kind
          = [SoopChatEvent.RAW, SoopChatEvent.NOTIFICATION]
        ∧ (handleMessage st (getPacket ChatType.TEXT_DONATION payload)).events.map Event.kind
          = [SoopChatEvent.RAW, SoopChatEvent.TEXT_DONATION]
        ∧ (handleMessage st (getPacket ChatType.VIDEO_DONATION payload)).events.map Event.kind
          = [SoopChatEvent.RAW, SoopChatEvent.VIDEO_DONATION]
        ∧ (handleMessage st (getPacket ChatType.AD_BALLOON_DONATION payload)).events.map Event.kind
          = [SoopChatEvent.RAW, SoopChatEvent.AD_BALLOON_DONATION]
        ∧ (handleMessage st (getPacket ChatType.EMOTICON payload)).events.map Event.kind
          = [SoopChatEvent.RAW, SoopChatEvent.EMOTICON])
      ∧ (st.connected = true →
          (handleMessage st (getPacket ChatType.DISCONNECT payload)).events.map Event.kind
            = [SoopChatEvent.RAW, SoopChatEvent.DISCONNECT])
      ∧ (st.connected = false →
          (handleMessage st (getPacket ChatType.DISCONNECT payload)).events.map Event.kind
            = [SoopChatEvent.RAW])
      ∧ (∀ code : String, code.length = 4 →
          code ∉ [ChatType.CONNECT, ChatType.ENTER_CHAT_ROOM, ChatType.CHAT,
                  ChatType.NOTIFICATION, ChatType.TEXT_DONATION, ChatType.VIDEO_DONATION,
                  ChatType.AD_BALLOON_DONATION, ChatType.EMOTICON, ChatType.DISCONNECT] →
          handleMessage st (getPacket code payload)
            = ⟨st, [Event.raw (getPacket code payload),
                    Event.unknown code ((getPacket code payload).splitOn ChatDelimiter.SEPARATOR)],
                []⟩) := by
  intro st payload
  have hconsts : ChatType.CONNECT = "0001" ∧ ChatType.ENTER_CHAT_ROOM = "0002"
      ∧ ChatType.CHAT = "0005" ∧ ChatType.NOTIFICATION = "0104"
      ∧ ChatType.TEXT_DONATION = "0018" ∧ ChatType.VIDEO_DONATION = "0105"
      ∧ ChatType.AD_BALLOON_DONATION = "0087" ∧ ChatType.EMOTICON = "0109"
      ∧ ChatType.DISCONNECT = "0007" :=
    ⟨rfl, rfl, rfl, rfl, rfl, rfl, rfl, rfl, rfl⟩
  obtain ⟨e1, e2, e3, e4, e5, e6, e7, e8, e9⟩ := hconsts
  refine ⟨⟨?_, ?_, ?_, ?_, ?_, ?_, ?_, ?_⟩, ?_, ?_, ?_⟩
  · simp only [handleMessage, parseMessageType_getPacket ChatType.CONNECT payload rfl]
    simp [Event.kind]
  · simp only [handleMessage, parseMessageType_getPacket ChatType.ENTER_CHAT_ROOM payload rfl]
    simp [Event.kind, e1, e2]
  · simp only [handleMessage, parseMessageType_getPacket ChatType.CHAT payload rfl]
    simp [Event.kind, e1, e2, e3]
  · simp only [handleMessage, parseMessageType_getPacket ChatType.NOTIFICATION payload rfl]
    simp [Event.kind, e1, e2, e3, e4]
  · simp only [handleMessage, parseMessageType_getPacket ChatType.TEXT_DONATION payload rfl]
    simp [Event.kind, e1, e2, e3, e4, e5]
  · simp only [handleMessage, parseMessageType_getPacket ChatType.VIDEO_DONATION payload rfl]
    simp [Event.kind, e1, e2, e3, e4, e5, e6]
  · simp only [handleMessage, parseMessageType_getPacket ChatType.AD_BALLOON_DONATION payload rfl]
    simp [Event.kind, e1, e2, e3, e4, e5, e6, e7]
  · simp only [handleMessage, parseMessageType_getPacket ChatType.EMOTICON payload rfl]
    simp [Event.kind, e1, e2, e3, e4, e5, e6, e7, e8]
  · intro hc
    simp only [handleMessage, parseMessageType_getPacket ChatType.DISCONNECT payload rfl]
    simp [Event.kind, disconnect, hc, e1, e2, e3, e4, e5, e6, e7, e8, e9]
  · intro hc
    simp only [handleMessage, parseMessageType_getPacket ChatType.DISCONNECT payload rfl]
    simp [Event.kind, disconnect, hc, e1, e2, e3, e4, e5, e6, e7, e8, e9]
  · intro code hlen hmem
    simp only [List.mem_cons, List.not_mem_nil, or_false, not_or] at hmem
    obtain ⟨n1, n2, n3, n4, n5, n6, n7, n8, n9⟩ := hmem
    simp only [handleMessage, parseMessageType_getPacket code payload hlen]
    simp [n1, n2, n3, n4, n5, n6, n7, n8, n9]

/-- C1 witness: the unknown branch of the mapping at the concrete code 9999. -/
theorem c1_witness :
    handleMessage sampleState (getPacket "9999" "")
      = ⟨sampleState, [Event.raw (getPacket "9999" ""),
          Event.unknown "9999" ((getPacket "9999" "").splitOn ChatDelimiter.SEPARATOR)], []⟩ :=
  (c1_kind_mapping sampleState "").2.2.2 "9999" (by decide) (by decide)


/-- C2 counterexample: with two registered handlers whose first raises, _emit
propagates the exception and the second handler is never invoked, refuting
that the exception is caught and later handlers still run. -/
theorem c2_counterexample :
    emit [("chat", [boomHandler, okHandler])] "chat" (7 : Nat) = ([7], some "boom")
    ∧ emit [("chat", [boomHandler, okHandler])] "chat" (7 : Nat) ≠ ([7, 7], none) := by
  refine ⟨rfl, ?_⟩
  intro hc
  exact Option.noConfusion (congrArg Prod.snd hc)

/-- Running a handler list on a payload stops at the first raising handler. -/
theorem emitHandlers_fault :
    ∀ {α ε : Type} (pre : List (α → Except ε Unit)) (h : α → Except ε Unit)
      (post : List (α → Except ε Unit)) (data : α) (e : ε),
      (∀ g ∈ pre, g data = Except.ok ()) →
      h data = Except.error e →
      emitHandlers (pre ++ h :: post) data
        = (List.replicate (pre.length + 1) data, some e) := by
  intro α ε pre h post data e hpre hh
  induction pre with
  | nil => simp [emitHandlers, hh]
  | cons g gs ih =>
    have hg : g data = Except.ok () := hpre g (List.mem_cons_self g gs)
    have ih2 := ih (fun x hx => hpre x (List.mem_cons_of_mem _ hx))
    simp only [List.cons_append, emitHandlers, hg, List.append_eq]
    rw [ih2]
    simp [List.replicate_succ]

/-- C2 (amended): when the handlers before position k all succeed on the
payload and the handler at position k raises, _emit invokes exactly the first
k+1 handlers, each with the event payload, and the exception propagates; the
handlers after position k are not invoked. -/
theorem c2_handler_fault :
    ∀ {α ε : Type} (tbl : List (String × List (α → Except ε Unit)))
      (ev : String) (pre post : List (α → Except ε Unit)) (h : α → Except ε Unit)
      (data : α) (e : ε),
      tbl.lookup ev = some (pre ++ h :: post) →
      (∀ g ∈ pre, g data = Except.ok ()) →
      h data = Except.error e →
      emit tbl ev data = (List.replicate (pre.length + 1) data, some e) := by
  intro α ε tbl ev pre post h data e hlook hpre hh
  simp only [emit, hlook]
  exact emitHandlers_fault pre h post data e hpre hh

/-- C2 witness: three concrete handlers of which the second raises. -/
theorem c2_witness :
    emit [("chat", [okHandler, boomHandler, okHandler])] "chat" (5 : Nat)
      = ([5, 5], some "boom") :=
  c2_handler_fault [("chat", [okHandler, boomHandler, okHandler])] "chat"
    [okHandler] [okHandler] boomHandler 5 "boom" rfl
    (fun g hg => by
      have hg2 := List.mem_singleton.mp hg
      subst hg2
      rfl)
    rfl

/-- C8: on a fresh client, when the resolved descriptor has RESULT 0 the
connect path fails with NotLive performing no action (no socket opened, no
frame sent); when RESULT is nonzero it proceeds to the WebSocket handshake
and then sends the CONNECT frame. -/
theorem c8_not_live :
    ∀ (st : ClientState) (d : LiveDetail),
      st.connected = false →
      (d.result = 0 →
        connectSteps st d = ([], Except.error ConnectError.notLive))
      ∧ (d.result ≠ 0 →
        connectSteps st d =
          ([Action.openWebSocket (makeChatUrl { st with liveDetail := d }) "chat",
            Action.sendFrame getConnectPacket],
           Except.ok { st with liveDetail := d, wsOpen := true, pingTask := true })) := by
  intro st d hc
  constructor
  · intro h0
    simp [connectSteps, hc, h0]
  · intro h0
    simp [connectSteps, hc, h0]

/-- C8 witness: the not-live outcome at a concrete descriptor with RESULT 0. -/
theorem c8_witness :
    connectSteps sampleState { sampleDetail with result := 0 }
      = ([], Except.error ConnectError.notLive) :=
  (c8_not_live sampleState { sampleDetail with result := 0 } rfl).1 rfl


/-- C9: every handled frame emits raw first, and the scripted session feeding
frames of types 0001, 0002, 0005, 0007 emits exactly the kinds raw, connect,
raw, enter_chat_room, raw, chat, raw, disconnect in order, with disconnect
emitted exactly once. -/
theorem c9_ordering :
    (∀ (st : ClientState) (pkt : String),
      (handleMessage st pkt).events.head? = some (Event.raw pkt))
    ∧ (runFrames sampleState scriptedFrames).2.map Event.kind
        = [SoopChatEvent.RAW, SoopChatEvent.CONNECT, SoopChatEvent.RAW,
           SoopChatEvent.ENTER_CHAT_ROOM, SoopChatEvent.RAW, SoopChatEvent.CHAT,
           SoopChatEvent.RAW, SoopChatEvent.DISCONNECT]
    ∧ ((runFrames sampleState scriptedFrames).2.map Event.kind).count
        SoopChatEvent.DISCONNECT = 1 := by
  refine ⟨?_, by decide, by decide⟩
  intro st pkt
  rcases hp : parseMessageType pkt with e | t
  · simp [handleMessage, hp]
  · simp only [handleMessage, hp]
    split_ifs <;> simp

/-- C10: disconnect() on a client whose connected flag is still false returns
with no event, no action and no state change; once a 0001 acknowledgement has
been handled, disconnect() emits the disconnect event and releases the
resources (connected, ping task and socket flags cleared). -/
theorem c10_close_before_ack :
    ∀ (st : ClientState) (pkt : String),
      (st.connected = false → disconnect st = ⟨st, [], []⟩)
      ∧ (parseMessageType pkt = Except.ok ChatType.CONNECT →
          ((handleMessage st pkt).state.connected = true
           ∧ (disconnect (handleMessage st pkt).state).events
               = [Event.disconnect st.streamerId]
           ∧ (disconnect (handleMessage st pkt).state).state.connected = false
           ∧ (disconnect (handleMessage st pkt).state).state.pingTask = false
           ∧ (disconnect (handleMessage st pkt).state).state.wsOpen = false)) := by
  intro st pkt
  constructor
  · intro h
    simp [disconnect, h]
  · intro hp
    simp [handleMessage, hp, disconnect]

/-- C10 witness: disconnect() on the concrete fresh client is a no-op. -/
theorem c10_witness :
    disconnect sampleState = ⟨sampleState, [], []⟩ :=
  (c10_close_before_ack sampleState "x").1 rfl

end Soop
